import Mathlib

/-!
Verification of the teamspeak-observer program (sources: src/socketlib.rs,
src/datastructures.rs, src/main.rs) against its natural-language
specification. The Rust code is shallowly embedded: string manipulation is
modelled on explicit character lists (Rust str methods re-implemented
structurally so that every definition evaluates in the kernel), the async
read loop of SocketConn::read_data is modelled as a pure function over a
script of read events, and panicking paths are made explicit with a
dedicated result constructor.
-/

deriving instance DecidableEq for Except

namespace TS

/- ### String helpers, modelling Rust str methods on character lists -/

/-- Rust str::starts_with on character lists: the second list is a prefix of
the first. -/
def listStartsWith : List Char → List Char → Bool
  | _, [] => true
  | [], _ :: _ => false
  | c :: cs, p :: ps => c = p && listStartsWith cs ps

/-- Rust str::starts_with. -/
def strStartsWith (s pat : String) : Bool :=
  listStartsWith s.toList pat.toList

/-- Rust str::ends_with. -/
def strEndsWith (s pat : String) : Bool :=
  listStartsWith s.toList.reverse pat.toList.reverse

/-- The whitespace class used by Rust str::trim, restricted to the ASCII
whitespace that occurs in this protocol. -/
def isWs (c : Char) : Bool :=
  c = ' ' || c = '\t' || c = '\n' || c = '\r'

/-- Rust str::trim. -/
def strTrim (s : String) : String :=
  String.mk (((s.toList.dropWhile isWs).reverse.dropWhile isWs).reverse)

/-- Does the first list contain the second as a contiguous sublist
(Rust str::contains)? -/
def listContainsSub (pat : List Char) : List Char → Bool
  | [] => pat.isEmpty
  | c :: cs => listStartsWith (c :: cs) pat || listContainsSub pat cs

/-- Rust str::contains. -/
def strContains (s pat : String) : Bool :=
  listContainsSub pat.toList s.toList

/-- Rust str::split on a non-empty pattern, accumulator style: cur holds the
current segment reversed; as soon as cur ends with the pattern a segment is
emitted (leftmost-first matching, as in Rust). -/
def listSplitGo (pat : List Char) : List Char → List Char → List (List Char)
  | [], cur => [cur.reverse]
  | c :: cs, cur =>
    let cur' := c :: cur
    if listStartsWith cur' pat.reverse then
      (cur'.drop pat.length).reverse :: listSplitGo pat cs []
    else
      listSplitGo pat cs cur'

/-- Rust str::split on a non-empty pattern. -/
def strSplit (s pat : String) : List String :=
  (listSplitGo pat.toList s.toList []).map String.mk

/-- Rust str::split_once: the text before the first occurrence of the
pattern and the text after it. -/
def listSplitOnce (pat : List Char) : List Char → Option (List Char × List Char)
  | [] => if pat.isEmpty then some ([], []) else none
  | c :: cs =>
    if listStartsWith (c :: cs) pat then
      some ([], (c :: cs).drop pat.length)
    else
      match listSplitOnce pat cs with
      | none => none
      | some (pre, post) => some (c :: pre, post)

/-- Rust str::split_once. -/
def strSplitOnce (s pat : String) : Option (String × String) :=
  (listSplitOnce pat.toList s.toList).map (fun p => (String.mk p.1, String.mk p.2))

/-- Rust str::split_inclusive with separator newline: segments keep their
trailing newline; the last segment may lack one; the empty string has no
segment. -/
def splitInclusiveNl : List Char → List (List Char)
  | [] => []
  | c :: cs =>
    if c = '\n' then
      [c] :: splitInclusiveNl cs
    else
      match splitInclusiveNl cs with
      | [] => [[c]]
      | seg :: rest => (c :: seg) :: rest

/-- The per-line cleanup of Rust str::lines: strip one trailing newline, and
a carriage return only when it stood directly before that newline. -/
def rustLineChars (l : List Char) : List Char :=
  match l.getLast? with
  | some '\n' =>
    let l' := l.dropLast
    match l'.getLast? with
    | some '\r' => l'.dropLast
    | _ => l'
  | _ => l

/-- Rust str::lines, as used by SocketConn::decode_status,
SocketConn::decode_status_with_result and the event loop of staff_thread. -/
def rustLines (s : String) : List String :=
  (splitInclusiveNl s.toList).map (fun l => String.mk (rustLineChars l))

/-- Digit-sequence parser (helper for the integer fields of the query
string format). -/
def parseNatGo : List Char → Nat → Option Nat
  | [], acc => some acc
  | c :: cs, acc =>
    if c.isDigit then parseNatGo cs (acc * 10 + (c.toNat - 48)) else none

/-- Signed decimal integer parser (helper for the integer fields of the
query string format). -/
def parseIntL : List Char → Option Int
  | [] => none
  | '-' :: rest =>
    match rest with
    | [] => none
    | _ => (parseNatGo rest 0).map (fun n => -(n : Int))
  | s => (parseNatGo s 0).map (fun n => (n : Int))

/- ### datastructures.rs -/

/-- query_status::QueryStatus from src/datastructures.rs: the decoded
trailing status line, with fields id and msg. -/
structure QueryStatus where
  id : Int
  msg : String
  deriving DecidableEq, Repr

/-- status_result::QueryError from src/datastructures.rs. -/
structure QueryError where
  code : Int
  message : String
  deriving DecidableEq, Repr

/-- From of QueryStatus for QueryError (src/datastructures.rs lines
344-351): code is the status id, message is the status msg, verbatim. -/
def QueryError.fromStatus (status : QueryStatus) : QueryError :=
  { code := status.id, message := status.msg }

/-- From of anyhow Error for QueryError (src/datastructures.rs lines
353-360): the synthetic local-error code -2 with the error text. -/
def QueryError.fromAnyhow (msg : String) : QueryError :=
  { code := -2, message := msg }

/-- QueryStatus::into_err from src/datastructures.rs. -/
def QueryStatus.into_err (s : QueryStatus) : QueryError :=
  QueryError.fromStatus s

/-- QueryStatus::into_result from src/datastructures.rs lines 173-178:
Ok(ret) when the id is 0, otherwise the status turned into a QueryError. -/
def QueryStatus.into_result {T : Type} (s : QueryStatus) (ret : T) :
    Except QueryError T :=
  if s.id = 0 then Except.ok ret else Except.error s.into_err

/-- Unescaping of the protocol escape sequences used by the query string
format (backslash-s is a space, backslash-p a pipe, backslash-slash a slash,
doubled backslash a backslash). -/
def tsUnescapeGo : List Char → List Char
  | [] => []
  | '\\' :: c :: rest =>
    (if c = 's' then ' '
     else if c = 'p' then '|'
     else if c = '/' then '/'
     else if c = '\\' then '\\'
     else c) :: tsUnescapeGo rest
  | c :: rest => c :: tsUnescapeGo rest

/-- String form of the unescaper. -/
def tsUnescape (s : String) : String :=
  String.mk (tsUnescapeGo s.toList)

/-- The value of the given key among space-separated key=value tokens. -/
def findValue (tokens : List String) (key : String) : Option String :=
  (tokens.find? (fun t => strStartsWith t (key ++ "="))).map
    (fun t => String.mk (t.toList.drop (key.toList.length + 1)))

/-- Modelled from the spec: the external crate serde_teamspeak_querystring,
applied at type QueryStatus (a flat key=value, space-separated mini-format
with protocol unescaping; both fields id and msg are required; malformed
input fails with an error, never panics). Its code is not part of this
repository. -/
def parseQueryStatus (s : String) : Except String QueryStatus :=
  let tokens := strSplit s " "
  match findValue tokens "id", findValue tokens "msg" with
  | some idStr, some msgStr =>
    match parseIntL idStr.toList with
    | some i => Except.ok { id := i, msg := tsUnescape msgStr }
    | none => Except.error ("Got error while parse string: " ++ s)
  | _, _ => Except.error ("Got error while parse string: " ++ s)

/-- TryFrom of a str for QueryStatus (src/datastructures.rs lines 181-191):
split the line once at the status marker and parse the remainder via the
query string format. -/
def QueryStatus.try_from (value : String) : Except String QueryStatus :=
  match strSplitOnce value "error " with
  | none => Except.error ("Split error: " ++ value)
  | some (_, line) => parseQueryStatus line

/- ### socketlib.rs -/

/-- The result of a Rust computation that can panic: either a panic with its
message, or the returned value. -/
inductive POr (α : Type) where
  | panic (msg : String)
  | ret (a : α)
  deriving DecidableEq, Repr

/-- Is the computation a normal return (no panic)? -/
def POr.isRet {α : Type} : POr α → Bool
  | POr.panic _ => false
  | POr.ret _ => true

/-- The line scan of SocketConn::decode_status (src/socketlib.rs lines
23-30): the first line whose trimmed form starts with the status marker is
parsed and reduced via QueryStatus::into_result; when no line matches, the
Rust code panics with the message built at line 30. The debug assertion at
lines 17-21 is compiled out of release builds and is not modelled. -/
def decode_status_go (content : String) : List String → POr (Except QueryError String)
  | [] => POr.panic ("Should return status in reply => " ++ content)
  | line :: rest =>
    if strStartsWith (strTrim line) "error " then
      match QueryStatus.try_from line with
      | Except.error e => POr.ret (Except.error (QueryError.fromAnyhow e))
      | Except.ok status => POr.ret (status.into_result content)
    else decode_status_go content rest

/-- SocketConn::decode_status from src/socketlib.rs lines 16-31. -/
def decode_status (content : String) : POr (Except QueryError String) :=
  decode_status_go content (rustLines content)

/-- The inner loop of SocketConn::decode_status_with_result (src/socketlib.rs
lines 40-43): decode every pipe-separated element of the result line,
propagating the first failure (converted to a QueryError as the question
mark operator does). -/
def decode_elements {T : Type} (fq : String → Except String T) :
    List String → Except QueryError (List T)
  | [] => Except.ok []
  | e :: rest =>
    match fq e with
    | Except.error err => Except.error (QueryError.fromAnyhow err)
    | Except.ok t =>
      match decode_elements fq rest with
      | Except.error err => Except.error err
      | Except.ok v => Except.ok (t :: v)

/-- The line scan of SocketConn::decode_status_with_result (src/socketlib.rs
lines 38-47): the first line that does not start with the status marker is
split on the pipe and decoded element-wise; if every line is a status line
the result is none. -/
def dswr_go {T : Type} (fq : String → Except String T) :
    List String → Except QueryError (Option (List T))
  | [] => Except.ok none
  | line :: rest =>
    if strStartsWith line "error " then dswr_go fq rest
    else
      match decode_elements fq (strSplit line "|") with
      | Except.error e => Except.error e
      | Except.ok v => Except.ok (some v)

/-- SocketConn::decode_status_with_result from src/socketlib.rs lines 33-48,
generic over the element decoder fq (Rust: T::from_query, an anyhow-fallible
deserializer). -/
def decode_status_with_result {T : Type} (fq : String → Except String T)
    (data : String) : POr (Except QueryError (Option (List T))) :=
  match decode_status data with
  | POr.panic m => POr.panic m
  | POr.ret (Except.error e) => POr.ret (Except.error e)
  | POr.ret (Except.ok content) => POr.ret (dswr_go fq (rustLines content))

/-- SocketConn::query_operation_non_error from src/socketlib.rs lines
104-113, applied to the response text of one round trip: a none result
(success status but no result line) reaches the panicking closure passed to
ok_or_else at line 111. -/
def query_operation_non_error {T : Type} (fq : String → Except String T)
    (payload data : String) : POr (Except QueryError (List T)) :=
  match decode_status_with_result fq data with
  | POr.panic m => POr.panic m
  | POr.ret (Except.error e) => POr.ret (Except.error e)
  | POr.ret (Except.ok none) =>
    POr.panic ("Can't find result line, payload => " ++ payload)
  | POr.ret (Except.ok (some v)) => POr.ret (Except.ok v)

/-- The buffer size of SocketConn::read_data (src/socketlib.rs line 9). -/
def BUFFER_SIZE : Nat := 512

/-- One outcome of the timed read inside SocketConn::read_data: the
2-second timeout elapsing with no bytes, a successful read of size bytes
whose lossy UTF-8 decoding is text, or an I/O error. -/
inductive ReadEvent where
  | timeout
  | chunk (size : Nat) (text : String)
  | ioErr (msg : String)
  deriving DecidableEq, Repr

/-- The result of one SocketConn::read_data call: Ok(None), Ok(Some text),
or Err. The more constructor stands for a script that ended while the Rust
loop would still be awaiting the next read. -/
inductive ReadResult where
  | ok (r : Option String)
  | err (msg : String)
  | more (acc : String)
  deriving DecidableEq, Repr

/-- The accumulation loop of SocketConn::read_data (src/socketlib.rs lines
53-69) over a script of read events, with acc the accumulator ret. A
timeout returns Ok(None) at line 62, dropping acc, which is a local of the
call. The loop breaks on a short read or on a complete status-terminated
message, and the function then returns Ok(None) for an empty accumulator
and Ok(Some ret) otherwise (line 70). -/
def read_data_go : List ReadEvent → String → ReadResult
  | [], acc => ReadResult.more acc
  | ev :: rest, acc =>
    match ev with
    | ReadEvent.timeout => ReadResult.ok none
    | ReadEvent.ioErr m => ReadResult.err ("Got error while read data: " ++ m)
    | ReadEvent.chunk size text =>
      let ret := acc ++ text
      if size < BUFFER_SIZE ∨
          (strContains ret "error id=" = true ∧ strEndsWith ret "\n\r" = true) then
        ReadResult.ok (if ret = "" then none else some ret)
      else read_data_go rest ret

/-- SocketConn::read_data from src/socketlib.rs lines 50-71: every call
starts with a fresh empty accumulator (let mut ret = String::new()). -/
def read_data (script : List ReadEvent) : ReadResult :=
  read_data_go script ""

/-- The payload built by SocketConn::login (src/socketlib.rs line 147). -/
def login_payload (user password : String) : String :=
  "login " ++ user ++ " " ++ password ++ "\n\r"

/-- The payload built by SocketConn::select_server (src/socketlib.rs
line 152). -/
def select_server_payload (server_id : Int) : String :=
  "use " ++ toString server_id ++ "\n\r"

/-- The payload of SocketConn::query_clients (src/socketlib.rs line 157). -/
def clientlist_payload : String := "clientlist\n\r"

/-- The payload of SocketConn::logout (src/socketlib.rs line 161). -/
def quit_payload : String := "quit\n\r"

/-- The payload of SocketConn::register_events (src/socketlib.rs
line 165). -/
def register_events_payload : String := "servernotifyregister event=server\n\r"

/-- The keepalive probe payload written by staff_thread (src/main.rs
line 170). -/
def whoami_payload : String := "whoami\n\r"

/- ### main.rs: notification data and formatting -/

/-- notifies::NotifyClientEnterView from src/datastructures.rs. -/
structure NotifyClientEnterView where
  client_id : Int
  client_nickname : String
  client_unique_identifier : String
  client_country : String
  deriving DecidableEq, Repr

/-- notifies::NotifyClientLeftView from src/datastructures.rs. -/
structure NotifyClientLeftView where
  client_id : Int
  reason : String
  deriving DecidableEq, Repr

/-- TelegramData from src/main.rs lines 40-44. -/
inductive TelegramData where
  | Enter (time : String) (client_id : Int)
      (client_identifier nickname country : String)
  | Left (time : String) (client_id : Int) (nickname reason : String)
  | Terminate
  deriving DecidableEq, Repr

/-- Modelled from the spec: the external crate country_emoji, whose flag
function renders a 2-letter country code as a regional-indicator flag glyph
when a mapping exists and nothing otherwise. Its code is not part of this
repository. -/
def country_emoji_flag (country : String) : Option String :=
  match country.toList with
  | [a, b] =>
    if 'A' ≤ a ∧ a ≤ 'Z' ∧ 'A' ≤ b ∧ b ≤ 'Z' then
      some (String.mk [Char.ofNat (0x1F1E6 + a.toNat - 65),
                       Char.ofNat (0x1F1E6 + b.toNat - 65)])
    else none
  | _ => none

/-- Display for TelegramData (src/main.rs lines 61-90). Terminate is never
formatted (the Rust code marks it unreachable); that case is modelled as
none, every reachable case as some of the formatted text. -/
def TelegramData.display : TelegramData → Option String
  | TelegramData.Enter time client_id client_identifier nickname country =>
    some ("[" ++ time ++ "] <b>" ++ nickname ++ "</b>(<code>" ++
      client_identifier ++ "</code>:" ++ toString client_id ++ ")[" ++
      ((country_emoji_flag country).getD country) ++ "] joined")
  | TelegramData.Left time client_id nickname reason =>
    if reason = "" then
      some ("[" ++ time ++ "] <b>" ++ nickname ++ "</b>(" ++
        toString client_id ++ ") left")
    else
      some ("[" ++ time ++ "] <b>" ++ nickname ++ "</b>(" ++
        toString client_id ++ ") left (" ++ reason ++ ")")
  | TelegramData.Terminate => none

/- ### main.rs: the client cache and the event classification of
staff_thread -/

/-- The client cache of staff_thread (src/main.rs line 131), a HashMap from
client id to (nickname, ignored flag), modelled as an association list with
unique keys. -/
abbrev ClientMap : Type := List (Int × (String × Bool))

/-- HashMap::get / contains_key. -/
def mapLookup (m : ClientMap) (k : Int) : Option (String × Bool) :=
  (m.find? (fun p => p.1 = k)).map (fun p => p.2)

/-- HashMap::insert: the new binding replaces any previous binding of the
same key. -/
def mapInsert (m : ClientMap) (k : Int) (v : String × Bool) : ClientMap :=
  (k, v) :: m.filter (fun p => ¬ p.1 = k)

/-- HashMap::remove. -/
def mapRemove (m : ClientMap) (k : Int) : ClientMap :=
  m.filter (fun p => ¬ p.1 = k)

/-- The ignored-status computation of staff_thread for an enter event
(src/main.rs lines 187-190): the unique identifier equals ServerQuery, or
some entry of the configured ignore list equals the unique identifier. The
nickname is never consulted. -/
def is_server_query (view : NotifyClientEnterView) (ignore_list : List String) : Bool :=
  view.client_unique_identifier = "ServerQuery" ||
    ignore_list.any (fun element => element = view.client_unique_identifier)

/-- The enter-event branch of staff_thread (src/main.rs lines 184-203):
the cache is updated with (nickname, ignored) regardless of ignored-status;
a TelegramData::Enter is queued only when not ignored. Returns the new
cache and the queued notifications. -/
def process_enter (ignore_list : List String) (current_time : String)
    (view : NotifyClientEnterView) (m : ClientMap) :
    ClientMap × List TelegramData :=
  let ignored := is_server_query view ignore_list
  let m' := mapInsert m view.client_id (view.client_nickname, ignored)
  if ignored then (m', [])
  else (m', [TelegramData.Enter current_time view.client_id
    view.client_unique_identifier view.client_nickname view.client_country])

/-- The left-event branch of staff_thread (src/main.rs lines 204-225): an
unknown client id is logged and skipped; a cached entry whose ignored flag
is set is skipped by the continue at line 213 (the entry is not removed);
otherwise a TelegramData::Left with the cached nickname is queued and the
entry is removed. Returns the new cache and the queued notifications. -/
def process_left (current_time : String) (view : NotifyClientLeftView)
    (m : ClientMap) : ClientMap × List TelegramData :=
  match mapLookup m view.client_id with
  | none => (m, [])
  | some nickname =>
    if nickname.2 then (m, [])
    else
      (mapRemove m view.client_id,
       [TelegramData.Left current_time view.client_id nickname.1 view.reason])

/- ### Helper lemmas -/

/-- Looking up the key just inserted returns the inserted value. -/
theorem mapLookup_insert (m : ClientMap) (k : Int) (v : String × Bool) :
    mapLookup (mapInsert m k v) k = some v := by
  unfold mapLookup mapInsert
  rw [List.find?_cons_of_pos _ (by simp)]
  rfl

/-- The accumulation loop only returns Ok(Some s) with non-empty s. -/
theorem read_data_go_some_nonempty (script : List ReadEvent) :
    ∀ (acc s : String), read_data_go script acc = ReadResult.ok (some s) → s ≠ "" := by
  induction script with
  | nil => intro acc s h; simp [read_data_go] at h
  | cons ev rest ih =>
    intro acc s h
    cases ev with
    | timeout => simp [read_data_go] at h
    | ioErr m => simp [read_data_go] at h
    | chunk size text =>
      rw [read_data_go] at h
      by_cases hc : size < BUFFER_SIZE ∨
          (strContains (acc ++ text) "error id=" = true ∧
            strEndsWith (acc ++ text) "\n\r" = true)
      · rw [if_pos hc] at h
        by_cases he : acc ++ text = ""
        · rw [if_pos he] at h; exact absurd h (by simp)
        · rw [if_neg he] at h
          have : acc ++ text = s := by
            have := h
            simp at this
            exact this
          rw [← this]; exact he
      · rw [if_neg hc] at h
        exact ih (acc ++ text) s h

/-- When every line is a status line, the record scan of
decode_status_with_result finds no result line. -/
theorem dswr_go_all_status {T : Type} (fq : String → Except String T) :
    ∀ (ls : List String), (∀ l ∈ ls, strStartsWith l "error " = true) →
      dswr_go fq ls = Except.ok none := by
  intro ls
  induction ls with
  | nil => intro _; rfl
  | cons l rest ih =>
    intro h
    rw [dswr_go, if_pos (h l (by simp))]
    exact ih (fun x hx => h x (by simp [hx]))

/-- The record scan of decode_status_with_result decodes the first line that
is not a status line. -/
theorem dswr_go_first_record {T : Type} (fq : String → Except String T) :
    ∀ (ls : List String) (l : String) (vs : List T),
      ls.find? (fun x => !(strStartsWith x "error ")) = some l →
      decode_elements fq (strSplit l "|") = Except.ok vs →
      dswr_go fq ls = Except.ok (some vs) := by
  intro ls
  induction ls with
  | nil => intro l vs h; simp at h
  | cons a rest ih =>
    intro l vs h hdec
    by_cases hs : strStartsWith a "error " = true
    · rw [List.find?_cons_of_neg _ (by simp [hs])] at h
      rw [dswr_go, if_pos hs]
      exact ih l vs h hdec
    · rw [List.find?_cons_of_pos _ (by simp [hs])] at h
      have hal : a = l := by simpa using h
      rw [dswr_go, if_neg hs, hal, hdec]

/- ### The claims -/

/-- C7 (confirmed): reducing a decoded QueryStatus to a result succeeds
exactly when its code equals 0, and for a status with id different from 0
the resulting error carries the decoded msg field verbatim as its
message. -/
theorem into_result_success_iff {T : Type} (s : QueryStatus) (ret : T) :
    ((∃ r, s.into_result ret = Except.ok r) ↔ s.id = 0) ∧
    (s.id ≠ 0 → s.into_result ret
      = Except.error { code := s.id, message := s.msg }) := by
  constructor
  · constructor
    · intro ⟨r, hr⟩
      by_contra h
      rw [QueryStatus.into_result, if_neg h] at hr
      exact absurd hr (by simp)
    · intro h
      exact ⟨ret, by rw [QueryStatus.into_result, if_pos h]⟩
  · intro h
    rw [QueryStatus.into_result, if_neg h]
    rfl

/-- Witness for C7: a failing status with id 1 and msg fail reduces to the
error with code 1 and that very message. -/
theorem into_result_success_iff_witness :
    QueryStatus.into_result { id := 1, msg := "fail" } "x"
      = Except.error { code := 1, message := "fail" } :=
  (into_result_success_iff { id := 1, msg := "fail" } "x").2 (by decide)

/-- C8 (confirmed): the three literal formatting cases of the contract,
computed by the Display implementation for TelegramData. -/
theorem telegram_display_literal_cases :
    TelegramData.display
        (TelegramData.Enter "2024-01-01 00:00:00" 5 "abc" "Foo" "US")
      = some "[2024-01-01 00:00:00] <b>Foo</b>(<code>abc</code>:5)[🇺🇸] joined" ∧
    TelegramData.display (TelegramData.Left "T" 5 "Foo" "")
      = some "[T] <b>Foo</b>(5) left" ∧
    TelegramData.display (TelegramData.Left "T" 5 "Foo" "banned")
      = some "[T] <b>Foo</b>(5) left (banned)" := by
  refine ⟨by decide, by decide, by decide⟩

/-- Counterexample for C9: the login command line ends with the two bytes
0x0A 0x0D (line feed then carriage return), not with the CR-LF order 0x0D
0x0A that the claim states. -/
theorem login_payload_not_crlf_cex :
    login_payload "user" "pass" = "login user pass\n\r" ∧
    strEndsWith (login_payload "user" "pass") "\r\n" = false ∧
    strEndsWith (login_payload "user" "pass") "\n\r" = true := by
  refine ⟨rfl, by decide, by decide⟩

/-- C9 (corrected): every encoded command line (login, select-session,
subscribe-to-events, list-clients, logout and the keepalive probe) is
terminated by the two-character sequence line feed then carriage return
(the bytes 0x0A 0x0D), the terminator the source writes and asserts in
SocketConn::write_data. -/
theorem payloads_end_with_lf_cr (user password : String) (server_id : Int) :
    (∃ s, login_payload user password = s ++ "\n\r") ∧
    (∃ s, select_server_payload server_id = s ++ "\n\r") ∧
    clientlist_payload = "clientlist" ++ "\n\r" ∧
    quit_payload = "quit" ++ "\n\r" ∧
    register_events_payload = "servernotifyregister event=server" ++ "\n\r" ∧
    whoami_payload = "whoami" ++ "\n\r" :=
  ⟨⟨_, rfl⟩, ⟨_, rfl⟩, rfl, rfl, rfl, rfl⟩

/-- C10 (confirmed): read_data never returns Ok(Some of the empty string);
every Ok(Some text) result has non-empty text, and in particular a loop
that accumulates nothing returns Ok(None). -/
theorem read_data_some_nonempty (script : List ReadEvent) (s : String)
    (h : read_data script = ReadResult.ok (some s)) : s ≠ "" :=
  read_data_go_some_nonempty script "" s h

/-- Witness for C10: a one-byte read yields Ok(Some b), and b is
non-empty. -/
theorem read_data_some_nonempty_witness : "b" ≠ "" :=
  read_data_some_nonempty [ReadEvent.chunk 1 "b"] "b" (by decide)

/-- A chunk of 512 characters, filling the read buffer exactly so that the
accumulation loop of read_data continues into the next timed read. -/
def fullChunk : String := String.mk (List.replicate 512 'a')

set_option maxRecDepth 20000 in
/-- Counterexample for C1: a full-buffer chunk is accumulated (a message is
in progress), then the timeout fires; the call returns Ok(None) and the 512
partially-received characters are dropped (the accumulator is a local of
the call), so a subsequent call sees only its own bytes b, not the lost
partial message. -/
theorem read_data_timeout_partial_lost_cex :
    read_data [ReadEvent.chunk 512 fullChunk, ReadEvent.timeout]
      = ReadResult.ok none ∧
    read_data [ReadEvent.chunk 512 fullChunk, ReadEvent.timeout,
        ReadEvent.chunk 1 "b"] = ReadResult.ok none ∧
    read_data [ReadEvent.chunk 1 "b"] = ReadResult.ok (some "b") ∧
    some "b" ≠ some (fullChunk ++ "b") := by
  refine ⟨by decide, by decide, by decide, by decide⟩

/-- C1 (corrected): whenever the 2-second per-read timeout fires, read_data
returns Ok(None), whatever has been accumulated so far; the partially
accumulated bytes are discarded with the call-local accumulator, not
preserved for the next call. -/
theorem read_data_timeout_returns_none (rest : List ReadEvent) (acc : String) :
    read_data_go (ReadEvent.timeout :: rest) acc = ReadResult.ok none := rfl

/-- Counterexample for C2: an input with no status line makes decode_status
panic (the panic at src/socketlib.rs line 30), not return a DecodeError. -/
theorem decode_status_no_status_line_panics_cex :
    decode_status "hello" = POr.panic "Should return status in reply => hello" ∧
    (decode_status "hello").isRet = false := by
  refine ⟨by decide, by decide⟩

/-- C2 (corrected): for every input string in which no line begins (after
trimming) with the status marker, decode_status panics with the message of
src/socketlib.rs line 30 rather than returning a DecodeError value. -/
theorem decode_status_no_status_line_panics (content : String)
    (h : ∀ l ∈ rustLines content, strStartsWith (strTrim l) "error " = false) :
    decode_status content
      = POr.panic ("Should return status in reply => " ++ content) := by
  rw [decode_status]
  have go : ∀ ls : List String,
      (∀ l ∈ ls, strStartsWith (strTrim l) "error " = false) →
      decode_status_go content ls
        = POr.panic ("Should return status in reply => " ++ content) := by
    intro ls
    induction ls with
    | nil => intro _; rfl
    | cons a rest ih =>
      intro hall
      rw [decode_status_go, if_neg (by simp [hall a (by simp)])]
      exact ih (fun x hx => hall x (by simp [hx]))
  exact go (rustLines content) h

/-- Witness for C2: the input hello has no status line, so decode_status
panics on it. -/
theorem decode_status_no_status_line_panics_witness :
    decode_status "hello"
      = POr.panic ("Should return status in reply => " ++ "hello") :=
  decode_status_no_status_line_panics "hello" (by decide)

/-- Counterexample for C3: a response whose status line indicates success
(id 0) but which contains no non-status result line makes
query_operation_non_error panic (the closure passed to ok_or_else at
src/socketlib.rs line 111), not return an Err of QueryError. -/
theorem query_operation_missing_result_panics_cex :
    query_operation_non_error (fun s => Except.ok s) "clientlist\n\r"
        "error id=0 msg=ok"
      = POr.panic "Can't find result line, payload => clientlist\n\r" ∧
    (query_operation_non_error (fun s => Except.ok s) "clientlist\n\r"
        "error id=0 msg=ok").isRet = false := by
  refine ⟨by decide, by decide⟩

/-- C3 (corrected): a response to the client-listing command with a success
status but no non-status result line does not reach a silent empty list; it
reaches the unconditional failure path, a panic naming the payload — the
call fails by panicking, not by returning Err of QueryError. -/
theorem query_operation_none_panics {T : Type} (fq : String → Except String T)
    (payload data : String)
    (h : decode_status_with_result fq data = POr.ret (Except.ok none)) :
    query_operation_non_error fq payload data
      = POr.panic ("Can't find result line, payload => " ++ payload) := by
  rw [query_operation_non_error, h]

/-- Witness for C3: the success-only response reduces to a none record set,
and the clientlist round trip then panics. -/
theorem query_operation_none_panics_witness :
    query_operation_non_error (fun s => Except.ok s) "clientlist\n\r"
        "error id=0 msg=ok"
      = POr.panic ("Can't find result line, payload => " ++ "clientlist\n\r") :=
  query_operation_none_panics (fun s => Except.ok s) "clientlist\n\r"
    "error id=0 msg=ok" (by decide)

/-- Counterexample for C4: a LeftEvent for client 5, present in the cache
and marked ignored, leaves the cache entry in place (the continue at
src/main.rs line 213 skips the removal at line 224), contradicting the
claim that the entry is removed. -/
theorem process_left_ignored_entry_kept_cex :
    process_left "T" { client_id := 5, reason := "" } [(5, ("Foo", true))]
      = ([(5, ("Foo", true))], []) ∧
    mapLookup
        (process_left "T" { client_id := 5, reason := "" }
          [(5, ("Foo", true))]).1 5
      = some ("Foo", true) := by
  refine ⟨by decide, by decide⟩

/-- C4 (corrected): a LeftEvent whose client id is cached and marked
ignored is skipped silently — no notification and, unlike the claim, no
removal: the entry stays in the cache; only a non-ignored entry is removed
(together with the emission of the Left notification), so the
has-not-yet-left invariant holds only for non-ignored entries. -/
theorem process_left_ignored_keeps_entry (t : String)
    (view : NotifyClientLeftView) (m : ClientMap) (nick : String) :
    (mapLookup m view.client_id = some (nick, true) →
      process_left t view m = (m, [])) ∧
    (mapLookup m view.client_id = some (nick, false) →
      process_left t view m = (mapRemove m view.client_id,
        [TelegramData.Left t view.client_id nick view.reason])) := by
  constructor
  · intro h
    rw [process_left, h]
    rfl
  · intro h
    rw [process_left, h]
    rfl

/-- Witness for C4: on the cache holding the ignored entry for client 5 the
event is skipped without removal, and on the cache holding a non-ignored
entry it is removed with a notification. -/
theorem process_left_ignored_keeps_entry_witness :
    process_left "T" { client_id := 5, reason := "r" } [(5, ("Foo", true))]
      = ([(5, ("Foo", true))], []) ∧
    process_left "T" { client_id := 5, reason := "r" } [(5, ("Foo", false))]
      = (mapRemove [(5, ("Foo", false))] 5, [TelegramData.Left "T" 5 "Foo" "r"]) :=
  ⟨(process_left_ignored_keeps_entry "T" { client_id := 5, reason := "r" }
      [(5, ("Foo", true))] "Foo").1 (by decide),
   (process_left_ignored_keeps_entry "T" { client_id := 5, reason := "r" }
      [(5, ("Foo", false))] "Foo").2 (by decide)⟩

/-- Counterexample for C5: with ignore list [Foo], an EnterEvent whose
nickname is Foo but whose unique identifier x is not listed is not ignored
(the comparison at src/main.rs lines 188-190 uses the unique identifier,
never the nickname), and a notification is queued — contradicting the
claim that a nickname match suppresses the notification. -/
theorem process_enter_nickname_in_ignore_list_cex :
    is_server_query { client_id := 5, client_nickname := "Foo",
                      client_unique_identifier := "x",
                      client_country := "US" } ["Foo"] = false ∧
    (process_enter ["Foo"] "T" { client_id := 5, client_nickname := "Foo",
                                 client_unique_identifier := "x",
                                 client_country := "US" } []).2
      = [TelegramData.Enter "T" 5 "x" "Foo" "US"] := by
  refine ⟨by decide, by decide⟩

/-- C5 (corrected): ignored-status is true exactly when the unique
identifier equals ServerQuery or the unique identifier (not the nickname)
is in the configured ignore list; an EnterEvent so ignored never produces a
queued notification, and the matching Left event is also suppressed. -/
theorem ignore_by_unique_identifier (il : List String) (t t2 : String)
    (v : NotifyClientEnterView) (lv : NotifyClientLeftView) (m : ClientMap) :
    (is_server_query v il = true ↔
      (v.client_unique_identifier = "ServerQuery" ∨
        v.client_unique_identifier ∈ il)) ∧
    (is_server_query v il = true →
      (process_enter il t v m).2 = [] ∧
      (lv.client_id = v.client_id →
        (process_left t2 lv (process_enter il t v m).1).2 = [])) := by
  constructor
  · simp only [is_server_query, Bool.or_eq_true, decide_eq_true_eq,
      List.any_eq_true]
    constructor
    · rintro (h | ⟨x, hx, he⟩)
      · exact Or.inl h
      · exact Or.inr (he ▸ hx)
    · rintro (h | h)
      · exact Or.inl h
      · exact Or.inr ⟨_, h, rfl⟩
  · intro h
    constructor
    · rw [process_enter]
      simp only [h, if_true]
    · intro hid
      rw [process_enter]
      simp only [h, if_true]
      rw [process_left, hid, mapLookup_insert]
      rfl

/-- Witness for C5: with ignore list [u], an enter event with unique
identifier u is ignored, queues nothing, and its left event queues
nothing either. -/
theorem ignore_by_unique_identifier_witness :
    (process_enter ["u"] "T" { client_id := 7, client_nickname := "N",
                               client_unique_identifier := "u",
                               client_country := "DE" } []).2 = [] ∧
    (process_left "T2" { client_id := 7, reason := "" }
      (process_enter ["u"] "T" { client_id := 7, client_nickname := "N",
                                 client_unique_identifier := "u",
                                 client_country := "DE" } []).1).2 = [] :=
  ⟨((ignore_by_unique_identifier ["u"] "T" "T2"
      { client_id := 7, client_nickname := "N",
        client_unique_identifier := "u", client_country := "DE" }
      { client_id := 7, reason := "" } []).2 (by decide)).1,
   ((ignore_by_unique_identifier ["u"] "T" "T2"
      { client_id := 7, client_nickname := "N",
        client_unique_identifier := "u", client_country := "DE" }
      { client_id := 7, reason := "" } []).2 (by decide)).2 (by decide)⟩

/-- C6 (confirmed): decode_status_with_result first decodes the status
line; a failure status is propagated unchanged; a success with every line a
status line yields none (neither an empty list nor an error); and a success
whose first non-status line decodes element-wise after splitting on the
pipe yields some of the decoded records. -/
theorem decode_records_spec {T : Type} (fq : String → Except String T)
    (data : String) :
    (∀ e, decode_status data = POr.ret (Except.error e) →
      decode_status_with_result fq data = POr.ret (Except.error e)) ∧
    (decode_status data = POr.ret (Except.ok data) →
      (∀ l ∈ rustLines data, strStartsWith l "error " = true) →
      decode_status_with_result fq data = POr.ret (Except.ok none)) ∧
    (decode_status data = POr.ret (Except.ok data) →
      ∀ l, (rustLines data).find? (fun x => !(strStartsWith x "error ")) = some l →
      ∀ vs, decode_elements fq (strSplit l "|") = Except.ok vs →
      decode_status_with_result fq data = POr.ret (Except.ok (some vs))) := by
  refine ⟨?_, ?_, ?_⟩
  · intro e h
    rw [decode_status_with_result, h]
  · intro h hall
    rw [decode_status_with_result, h]
    show POr.ret (dswr_go fq (rustLines data)) = _
    rw [dswr_go_all_status fq (rustLines data) hall]
  · intro h l hfind vs hdec
    rw [decode_status_with_result, h]
    show POr.ret (dswr_go fq (rustLines data)) = _
    rw [dswr_go_first_record fq (rustLines data) l vs hfind hdec]

/-- Witness for C6: a failing status propagates its error, a success-only
response yields none, and a response with record line a|b yields the two
decoded records. -/
theorem decode_records_spec_witness :
    decode_status_with_result (fun s => Except.ok s) "error id=1 msg=x"
      = POr.ret (Except.error { code := 1, message := "x" }) ∧
    decode_status_with_result (fun s => Except.ok s) "error id=0 msg=ok"
      = POr.ret (Except.ok none) ∧
    decode_status_with_result (fun s => Except.ok s) "a|b\nerror id=0 msg=ok"
      = POr.ret (Except.ok (some ["a", "b"])) :=
  ⟨(decode_records_spec (fun s => Except.ok s) "error id=1 msg=x").1
      { code := 1, message := "x" } (by decide),
   (decode_records_spec (fun s => Except.ok s) "error id=0 msg=ok").2.1
      (by decide) (by decide),
   (decode_records_spec (fun s => Except.ok s) "a|b\nerror id=0 msg=ok").2.2
      (by decide) "a|b" (by decide) ["a", "b"] (by decide)⟩

end TS
